import Mathlib

/-!
Shallow embedding of the `Metaphase` simulation driver from
`kt_simul/core/simul_spindle.py`, together with proofs of the spec's
testable properties.

Python numbers are modelled as rationals (`ℚ`); Python's `int(x)`
conversion (truncation toward zero) is `pyTrunc`.  The external physical
collaborator (`KinetoDynamics`) is represented by an explicit state record
holding exactly the data the driver reads and writes: the parameter
mapping, the `anaphase` and `simulation_done` flags, pole positions, the
flat plug-site list, the chromosome collection, and call counters for the
collaborator entry points (`one_step`, `calc_B`, `time_invariantA`) whose
invocations are observable driver behaviour.
-/

namespace KtSimul

/-- Python's `int(q)` for a rational: truncation toward zero. -/
def pyTrunc (q : ℚ) : ℤ :=
  if q < 0 then -⌊-q⌋ else ⌊q⌋

/-- A 4-element attachment count vector, the argument of
`Metaphase.get_attachment` (`state[0] .. state[3]`). -/
structure StateVec where
  a0 : ℤ
  a1 : ℤ
  a2 : ℤ
  a3 : ℤ
deriving DecidableEq, Repr

/-- The left-right relabeling
`permuted_state = [state[1], state[0], state[3], state[2]]`. -/
def StateVec.perm (s : StateVec) : StateVec :=
  ⟨s.a1, s.a0, s.a3, s.a2⟩

/-- Predicate `amphitelic` from `get_attachment`. -/
def amphitelic (s : StateVec) : Bool :=
  decide (0 < s.a0) && decide (0 < s.a1) && decide (s.a2 = 0) && decide (s.a3 = 0)

/-- Predicate `monotelic` from `get_attachment`. -/
def monotelic (s : StateVec) : Bool :=
  decide (0 < s.a0) && decide (s.a1 = 0) && decide (s.a2 = 0) && decide (s.a3 = 0)

/-- Predicate `syntelic` from `get_attachment`. -/
def syntelic (s : StateVec) : Bool :=
  decide (0 < s.a0) && decide (s.a1 = 0) && decide (s.a2 = 0) && decide (0 < s.a3)

/-- Predicate `merotelic` from `get_attachment`. -/
def merotelic (s : StateVec) : Bool :=
  decide (0 < s.a0) && decide (0 < s.a2)

/-- Predicate `unattached` from `get_attachment`. -/
def unattached (s : StateVec) : Bool :=
  decide (s.a0 = 0) && decide (s.a1 = 0) && decide (s.a2 = 0) && decide (s.a3 = 0)

/-- Disjunction `f(state) or f(permuted_state)` used by every branch of
`get_attachment`. -/
def orPerm (f : StateVec → Bool) (s : StateVec) : Bool :=
  f s || f s.perm

/-- Classifier `Metaphase.get_attachment`: first-match classification over
the state vector and its left-right permutation.  Labels: 0 amphitelic,
1 monotelic, 2 syntelic, 3 merotelic, 4 unattached, 5 error. -/
def get_attachment (s : StateVec) : ℕ :=
  if orPerm amphitelic s then 0
  else if orPerm monotelic s then 1
  else if orPerm syntelic s then 2
  else if orPerm merotelic s then 3
  else if orPerm unattached s then 4
  else 5

/-- Label names from `Metaphase.get_attachment_names`. -/
def get_attachment_names : List String :=
  ["amphitelic", "monotelic", "syntelic", "merotelic", "unattached", "error"]

/-- The live parameter mapping `KD.params`, restricted to the keys the
driver reads or writes. -/
structure Params where
  kappa_c : ℚ
  Fmz : ℚ
  k_a : ℚ
  k_d0 : ℚ
  t_A : ℚ
  dt : ℚ
  sac : ℚ
  span : ℚ
deriving DecidableEq, Repr

/-- A microtubule plug site: position, plug state
(−1 left pole, 0 unattached, +1 right pole) and the timestamped record
kept by `set_plug_state`. -/
structure PlugSite where
  pos : ℚ
  plug_state : ℤ
  hist : List (ℕ × ℤ)
deriving DecidableEq, Repr

/-- Mutator `PlugSite.set_plug_state(state, time_point)`: set the plug
state and record the time point of the transition. -/
def set_plug_state (v : ℤ) (tp : ℕ) (p : PlugSite) : PlugSite :=
  { p with plug_state := v, hist := p.hist ++ [(tp, v)] }

/-- A chromosome, as read by the checkpoints: the two centromere
`is_attached()` values and the `erroneous()` count vector. -/
structure Chromosome where
  cenA_attached : Bool
  cenB_attached : Bool
  erroneous : List ℕ
deriving DecidableEq, Repr

/-- The state of the physical collaborator (`self.KD`) as seen by the
driver, plus call counters for the collaborator entry points. -/
structure KDState where
  params : Params
  anaphase : Bool
  simulation_done : Bool
  spbL_pos : ℚ
  spbR_pos : ℚ
  all_plugsites : List PlugSite
  chromosomes : List Chromosome
  one_step_calls : ℕ
  calcB_calls : ℕ
  A0_recomputes : ℕ
deriving DecidableEq, Repr

/-- The driver's own state (`Metaphase` instance attributes used by the
simulation loop).  `diagnostics` models the log channel that receives
`log.warning` lines. -/
structure MetaState where
  KD : KDState
  num_steps : ℤ
  report : List String
  delay : ℚ
  diagnostics : List String
deriving DecidableEq, Repr

/-- Constructor `Metaphase.__init__` restricted to the simulation-relevant fields:
takes the freshly constructed collaborator state, sets
`num_steps = int(span / dt)`, `KD.anaphase = False`, `report = []`,
`delay = -1`.  Collaborator call counters start at zero for a fresh
instance. -/
def Metaphase_init (kd : KDState) : MetaState :=
  { KD := { kd with anaphase := false, one_step_calls := 0,
                    calcB_calls := 0, A0_recomputes := 0 },
    num_steps := pyTrunc (kd.params.span / kd.params.dt),
    report := [],
    delay := -1,
    diagnostics := [] }

/-- Checkpoint `Metaphase._plug_checkpoint`: pass unconditionally when
`sac == 0`, otherwise pass iff every chromosome has both centromeres
attached. -/
def plug_checkpoint (kd : KDState) : Bool :=
  if kd.params.sac = 0 then true
  else kd.chromosomes.all (fun ch => ch.cenA_attached && ch.cenB_attached)

/-- Checkpoint `Metaphase._mero_checkpoint`: total count of erroneous
attachments, summed over chromosomes with at least one nonzero entry. -/
def mero_checkpoint (kd : KDState) : ℕ :=
  kd.chromosomes.foldl
    (fun acc ch => if ch.erroneous.any (fun x => x != 0) then acc + ch.erroneous.sum else acc) 0

/-- The report line `"There were %d merotelic MT at anaphase onset" % nb_mero`. -/
def mero_line (n : ℕ) : String :=
  "There were " ++ toString n ++ " merotelic MT at anaphase onset"

/-- Effect of anaphase onset inside `Metaphase._anaphase_test`: record
`delay = time_point*dt - int(t_A)`, zero the live `kappa_c`, call
`calc_B`, append the merotelic report line when the merotelic count is
nonzero, and latch `anaphase`.  The Python statements mutate disjoint
fields, so they are gathered in one record update. -/
def anaphase_onset (s : MetaState) (tp : ℕ) : MetaState :=
  { s with
      KD := { s.KD with params := { s.KD.params with kappa_c := 0 },
                        calcB_calls := s.KD.calcB_calls + 1,
                        anaphase := true },
      report := if mero_checkpoint s.KD ≠ 0
                then s.report ++ [mero_line (mero_checkpoint s.KD)]
                else s.report,
      delay := (tp : ℚ) * s.KD.params.dt - (pyTrunc s.KD.params.t_A : ℚ) }

/-- Latch `Metaphase._anaphase_test(time_point)`.  Returns
the boolean result together with the updated state.  When already in
anaphase it short-circuits; otherwise it fires iff
`time_point * dt ≥ int(t_A)` and the plug checkpoint passes. -/
def anaphase_test (s : MetaState) (tp : ℕ) : Bool × MetaState :=
  if s.KD.anaphase then (true, s)
  else if (pyTrunc s.KD.params.t_A : ℚ) ≤ (tp : ℚ) * s.KD.params.dt ∧
          plug_checkpoint s.KD = true then
    (true, anaphase_onset s tp)
  else (false, s)

/-- Per-plug-site effect of `Metaphase._ablation`: detach the site when it
lies on the far side of the cut from its pole. -/
def ablation_site (pos : ℚ) (tp : ℕ) (p : PlugSite) : PlugSite :=
  if pos < p.pos ∧ p.plug_state = -1 then set_plug_state 0 tp p
  else if p.pos < pos ∧ p.plug_state = 1 then set_plug_state 0 tp p
  else p

/-- The `log.warning` line recorded on a missed ablation shot. -/
def missed_shot_line : String := "Missed shot, same player play again!"

/-- Perturbation `Metaphase._ablation(time_point, pos)`.  A position outside the
closed pole-to-pole interval is a recorded miss and a no-op; otherwise
the midzone stall force, attachment rate and base detachment rate are
zeroed, `time_invariantA` is recomputed, and every plug site on the far
side of `pos` from its pole is detached with the time point recorded. -/
def ablation_at (s : MetaState) (tp : ℕ) (pos : ℚ) : MetaState :=
  if ¬ (s.KD.spbL_pos ≤ pos ∧ pos ≤ s.KD.spbR_pos) then
    { s with diagnostics := s.diagnostics ++ [missed_shot_line] }
  else
    { s with KD := { s.KD with
        params := { s.KD.params with Fmz := 0, k_a := 0, k_d0 := 0 },
        A0_recomputes := s.KD.A0_recomputes + 1,
        all_plugsites := s.KD.all_plugsites.map (ablation_site pos tp) } }

/-- Default handling of `pos=None` in `Metaphase._ablation`: an absent
position defaults to the current right-pole position. -/
def ablation (s : MetaState) (tp : ℕ) (pos? : Option ℚ) : MetaState :=
  ablation_at s tp (pos?.getD s.KD.spbR_pos)

/-- Modelled from the spec: the external physical collaborator's
`one_step(time_point)` ("advance all trajectories by one increment;
side-effecting, single call per time point").  Its internals are out of
scope; only its invocation is observable to the driver, so it is modelled
as the call counter increment. -/
def one_step (s : MetaState) (_tp : ℕ) : MetaState :=
  { s with KD := { s.KD with one_step_calls := s.KD.one_step_calls + 1 } }

/-- The body of one iteration of the `Metaphase.simul` loop at
`time_point`: optional ablation, the anaphase test, then one step of
physical advancement. -/
def sim_step (ablat : Option ℕ) (ablat_pos : ℚ) (s : MetaState) (tp : ℕ) : MetaState :=
  one_step
    (anaphase_test (if ablat = some tp then ablation s tp (some ablat_pos) else s) tp).2
    tp

/-- Right-justify a decimal string in width 2, as Python's `"%2d"`. -/
def pad2 (str : String) : String :=
  if str.length < 2 then " " ++ str else str

/-- The report line `"delay = %2d seconds" % self.delay`. -/
def delay_line (d : ℚ) : String :=
  "delay = " ++ pad2 (toString (pyTrunc d)) ++ " seconds"

/-- Loop-end finalization of `Metaphase.simul`: restore the saved
`kappa_c` in the live parameter mapping, then append the delay report
line. -/
def sim_finish (kappa : ℚ) (s1 : MetaState) : MetaState :=
  { s1 with KD := { s1.KD with params := { s1.KD.params with kappa_c := kappa } },
            report := s1.report ++ [delay_line s1.delay] }

/-- Driver `Metaphase.simul(ablat, ablat_pos)`: raise
`SimulationAlreadyDone` when the collaborator's `simulation_done` flag is
set, before any step executes; otherwise save `kappa_c`, run the loop for
`time_point in range(1, num_steps)`, restore `kappa_c`, and append the
delay report line. -/
def simul (s : MetaState) (ablat : Option ℕ) (ablat_pos : ℚ) : Except String MetaState :=
  if s.KD.simulation_done then
    .error "SimulationAlreadyDone"
  else
    .ok (sim_finish s.KD.params.kappa_c
          ((List.range' 1 (s.num_steps - 1).toNat).foldl (sim_step ablat ablat_pos) s))

deriving instance DecidableEq for Except

/-- Concrete collaborator state used by witnesses and counterexamples:
span 2, dt 1 (so `num_steps = 2` and the loop runs the single time
point 1), checkpointing enabled, one fully unattached chromosome. -/
def c2kd : KDState :=
  { params := { kappa_c := 3, Fmz := 1, k_a := 1, k_d0 := 1, t_A := 100,
                dt := 1, sac := 1, span := 2 },
    anaphase := false, simulation_done := false,
    spbL_pos := -2, spbR_pos := 2,
    all_plugsites := [⟨1, 1, []⟩, ⟨-1, -1, []⟩, ⟨0, 0, []⟩],
    chromosomes := [⟨false, false, [0, 0]⟩],
    one_step_calls := 0, calcB_calls := 0, A0_recomputes := 0 }

/-- Concrete collaborator state with a fractional anaphase threshold
`t_A = 1/2` and `dt = 1/4`: at time point 1 the elapsed time `1/4` is
below `t_A` but not below `int(t_A) = 0`, so the code fires early. -/
def cex7kd : KDState :=
  { params := { kappa_c := 3, Fmz := 1, k_a := 1, k_d0 := 1, t_A := 1/2,
                dt := 1/4, sac := 0, span := 3/2 },
    anaphase := false, simulation_done := false,
    spbL_pos := -2, spbR_pos := 2,
    all_plugsites := [],
    chromosomes := [⟨false, false, [1, 0]⟩],
    one_step_calls := 0, calcB_calls := 0, A0_recomputes := 0 }

/-- Concrete driver state whose collaborator reports a completed
simulation. -/
def doneMeta : MetaState :=
  { KD := { c2kd with simulation_done := true },
    num_steps := 2, report := ["old"], delay := 7, diagnostics := [] }

/-- Concrete driver state already latched in anaphase. -/
def anaMeta : MetaState :=
  { KD := { c2kd with anaphase := true },
    num_steps := 2, report := ["r"], delay := 5, diagnostics := [] }

/-- Concrete driver state for the ablation witness: poles at −1 and 1,
one site attached to each pole and one unattached site. -/
def w3meta : MetaState :=
  { KD := { c2kd with spbL_pos := -1, spbR_pos := 1,
                      all_plugsites := [⟨1/2, 1, []⟩, ⟨-1/2, -1, []⟩, ⟨1/2, 0, []⟩] },
    num_steps := 2, report := [], delay := -1, diagnostics := [] }

/-- Concrete collaborator state with `sac = 0` and no attached
chromosome, for the disabled-checkpoint witness. -/
def kd8 : KDState :=
  { c2kd with params := { c2kd.params with sac := 0 },
              chromosomes := [⟨false, false, []⟩, ⟨false, true, []⟩] }

/-- Concrete collaborator state on which anaphase fires during the run:
`t_A = 2`, `dt = 1`, checkpointing disabled, a merotelic chromosome. -/
def kd9 : KDState :=
  { params := { kappa_c := 3, Fmz := 1, k_a := 1, k_d0 := 1, t_A := 2,
                dt := 1, sac := 0, span := 5 },
    anaphase := false, simulation_done := false,
    spbL_pos := -2, spbR_pos := 2,
    all_plugsites := [],
    chromosomes := [⟨true, true, [1, 0]⟩],
    one_step_calls := 0, calcB_calls := 0, A0_recomputes := 0 }

/-! Helper lemmas. -/

/-- The left-right relabeling is an involution. -/
theorem perm_perm (s : StateVec) : s.perm.perm = s := by
  cases s; rfl

/-- Each classifier branch condition is invariant under the relabeling. -/
theorem orPerm_perm (f : StateVec → Bool) (s : StateVec) : orPerm f s.perm = orPerm f s := by
  unfold orPerm
  rw [perm_perm, Bool.or_comm]

/-- The classifier is invariant under the left-right relabeling. -/
theorem get_attachment_perm (s : StateVec) : get_attachment s.perm = get_attachment s := by
  simp only [get_attachment, orPerm_perm]

/-- A call of the anaphase test with the latch already set short-circuits. -/
theorem anaphase_test_already (s : MetaState) (tp : ℕ) (h : s.KD.anaphase = true) :
    anaphase_test s tp = (true, s) := by
  unfold anaphase_test
  simp [h]

/-- The anaphase test either leaves the latch set in its output or is the
identity returning `false`. -/
theorem anaphase_test_shape (s : MetaState) (tp : ℕ) :
    (anaphase_test s tp).2.KD.anaphase = true ∨ anaphase_test s tp = (false, s) := by
  unfold anaphase_test
  split
  · next h => left; simpa using h
  · split
    · left; rfl
    · right; rfl

/-- The anaphase latch is monotone across one anaphase test. -/
theorem anaphase_test_mono (s : MetaState) (tp : ℕ) (h : s.KD.anaphase = true) :
    (anaphase_test s tp).2.KD.anaphase = true := by
  rw [anaphase_test_already s tp h]
  exact h

/-- If the anaphase latch is still unset after the test, the test was the
identity. -/
theorem anaphase_test_no_fire (s : MetaState) (tp : ℕ)
    (h : (anaphase_test s tp).2.KD.anaphase = false) :
    anaphase_test s tp = (false, s) := by
  rcases anaphase_test_shape s tp with h1 | h1
  · rw [h1] at h; cases h
  · exact h1

/-- The anaphase test never touches the physical-advancement counter. -/
theorem anaphase_test_one_step_calls (s : MetaState) (tp : ℕ) :
    (anaphase_test s tp).2.KD.one_step_calls = s.KD.one_step_calls := by
  unfold anaphase_test
  split
  · rfl
  · split <;> rfl

/-- The anaphase test never touches the `simulation_done` flag. -/
theorem anaphase_test_simulation_done (s : MetaState) (tp : ℕ) :
    (anaphase_test s tp).2.KD.simulation_done = s.KD.simulation_done := by
  unfold anaphase_test
  split
  · rfl
  · split <;> rfl

/-- Ablation never touches the report, the delay, the anaphase latch or
the physical-advancement counter. -/
theorem ablation_frame (s : MetaState) (tp : ℕ) (pos? : Option ℚ) :
    (ablation s tp pos?).report = s.report ∧
    (ablation s tp pos?).delay = s.delay ∧
    (ablation s tp pos?).KD.anaphase = s.KD.anaphase ∧
    (ablation s tp pos?).KD.one_step_calls = s.KD.one_step_calls := by
  unfold ablation ablation_at
  split <;> exact ⟨rfl, rfl, rfl, rfl⟩

/-- One simulation step performs exactly one physical-advancement call. -/
theorem sim_step_one_step_calls (a : Option ℕ) (p : ℚ) (s : MetaState) (tp : ℕ) :
    (sim_step a p s tp).KD.one_step_calls = s.KD.one_step_calls + 1 := by
  unfold sim_step one_step
  rw [anaphase_test_one_step_calls]
  by_cases h : a = some tp
  · rw [if_pos h, (ablation_frame s tp (some p)).2.2.2]
  · rw [if_neg h]

/-- The anaphase latch is monotone across one simulation step. -/
theorem sim_step_anaphase_mono (a : Option ℕ) (p : ℚ) (s : MetaState) (tp : ℕ)
    (h : s.KD.anaphase = true) :
    (sim_step a p s tp).KD.anaphase = true := by
  unfold sim_step one_step
  show (anaphase_test _ tp).2.KD.anaphase = true
  apply anaphase_test_mono
  by_cases ha : a = some tp
  · rw [if_pos ha, (ablation_frame s tp (some p)).2.2.1]; exact h
  · rw [if_neg ha]; exact h

/-- If the anaphase latch is still unset after a simulation step, the step
changed neither the report nor the delay. -/
theorem sim_step_no_fire (a : Option ℕ) (p : ℚ) (s : MetaState) (tp : ℕ)
    (h : (sim_step a p s tp).KD.anaphase = false) :
    (sim_step a p s tp).report = s.report ∧ (sim_step a p s tp).delay = s.delay := by
  unfold sim_step one_step at *
  have h2 : (anaphase_test (if a = some tp then ablation s tp (some p) else s) tp).2.KD.anaphase
      = false := h
  rw [anaphase_test_no_fire _ tp h2]
  by_cases ha : a = some tp
  · rw [if_pos ha] at h2 ⊢
    exact ⟨(ablation_frame s tp (some p)).1, (ablation_frame s tp (some p)).2.1⟩
  · rw [if_neg ha]
    exact ⟨rfl, rfl⟩

/-- One simulation step never touches the `simulation_done` flag. -/
theorem sim_step_simulation_done (a : Option ℕ) (p : ℚ) (s : MetaState) (tp : ℕ) :
    (sim_step a p s tp).KD.simulation_done = s.KD.simulation_done := by
  unfold sim_step one_step
  rw [anaphase_test_simulation_done]
  by_cases h : a = some tp
  · rw [if_pos h]
    unfold ablation ablation_at
    split <;> rfl
  · rw [if_neg h]

/-- The loop performs exactly one physical-advancement call per time
point. -/
theorem loop_one_step_calls (a : Option ℕ) (p : ℚ) (l : List ℕ) (s : MetaState) :
    (l.foldl (sim_step a p) s).KD.one_step_calls = s.KD.one_step_calls + l.length := by
  induction l generalizing s with
  | nil => rfl
  | cons x xs ih =>
    rw [List.foldl_cons, ih (sim_step a p s x), sim_step_one_step_calls, List.length_cons]
    omega

/-- The anaphase latch is monotone across the whole loop. -/
theorem loop_anaphase_mono (a : Option ℕ) (p : ℚ) (l : List ℕ) (s : MetaState)
    (h : s.KD.anaphase = true) :
    (l.foldl (sim_step a p) s).KD.anaphase = true := by
  induction l generalizing s with
  | nil => exact h
  | cons x xs ih =>
    rw [List.foldl_cons]
    exact ih (sim_step a p s x) (sim_step_anaphase_mono a p s x h)

/-- If the anaphase latch is still unset after the loop, the loop changed
neither the report nor the delay. -/
theorem loop_no_fire (a : Option ℕ) (p : ℚ) (l : List ℕ) (s : MetaState)
    (h : (l.foldl (sim_step a p) s).KD.anaphase = false) :
    (l.foldl (sim_step a p) s).report = s.report ∧
    (l.foldl (sim_step a p) s).delay = s.delay := by
  induction l generalizing s with
  | nil => exact ⟨rfl, rfl⟩
  | cons x xs ih =>
    rw [List.foldl_cons] at h ⊢
    have hx : (sim_step a p s x).KD.anaphase = false := by
      cases hb : (sim_step a p s x).KD.anaphase
      · rfl
      · rw [loop_anaphase_mono a p xs _ hb] at h; cases h
    have hstep := sim_step_no_fire a p s x hx
    have hrest := ih (sim_step a p s x) h
    exact ⟨hrest.1.trans hstep.1, hrest.2.trans hstep.2⟩

/-- Truncation agrees with the floor on nonnegative rationals. -/
theorem pyTrunc_of_nonneg (q : ℚ) (h : 0 ≤ q) : pyTrunc q = ⌊q⌋ := by
  unfold pyTrunc
  rw [if_neg (not_lt.mpr h)]

/-- Finalization keeps the physical-advancement counter. -/
theorem sim_finish_one_step_calls (k : ℚ) (s1 : MetaState) :
    (sim_finish k s1).KD.one_step_calls = s1.KD.one_step_calls := rfl

/-- Finalization writes the saved `kappa_c` back. -/
theorem sim_finish_kappa (k : ℚ) (s1 : MetaState) :
    (sim_finish k s1).KD.params.kappa_c = k := rfl

/-- Finalization keeps the anaphase latch. -/
theorem sim_finish_anaphase (k : ℚ) (s1 : MetaState) :
    (sim_finish k s1).KD.anaphase = s1.KD.anaphase := rfl

/-- Finalization appends exactly the delay report line. -/
theorem sim_finish_report (k : ℚ) (s1 : MetaState) :
    (sim_finish k s1).report = s1.report ++ [delay_line s1.delay] := rfl

/-- Finalization keeps the recorded delay. -/
theorem sim_finish_delay (k : ℚ) (s1 : MetaState) :
    (sim_finish k s1).delay = s1.delay := rfl

/-- On a not-yet-completed instance, `simul` runs the loop over
`range(1, num_steps)` and finalizes. -/
theorem simul_ok (s : MetaState) (a : Option ℕ) (p : ℚ)
    (h : s.KD.simulation_done = false) :
    simul s a p = .ok (sim_finish s.KD.params.kappa_c
      ((List.range' 1 (s.num_steps - 1).toNat).foldl (sim_step a p) s)) := by
  unfold simul
  rw [if_neg (by simp [h])]

/-- Evaluation of the delay line at the sentinel. -/
theorem delay_line_neg_one : delay_line (-1) = "delay = -1 seconds" := rfl

/-! Claim theorems. -/

/-- C1 counterexample: on the state vector `[0,1,1,0]` the classifier does
not return the error label 5. -/
theorem C1_counterexample : get_attachment ⟨0, 1, 1, 0⟩ ≠ 5 := by decide

/-- C1 (amended): on `[0,1,1,0]` the classifier returns 2 (syntelic),
because the left-right permutation `[1,0,0,1]` satisfies the syntelic
predicate. -/
theorem C1_theorem :
    get_attachment ⟨0, 1, 1, 0⟩ = 2 ∧ syntelic (StateVec.perm ⟨0, 1, 1, 0⟩) = true := by
  decide

/-- C2 counterexample: with span 2 and dt 1 the driver computes
`num_steps = 2`, the run completes with exactly 1 physical-advancement
call, so the call count differs from `num_steps`. -/
theorem C2_counterexample :
    (Metaphase_init c2kd).num_steps = 2 ∧
    (simul (Metaphase_init c2kd) none 0).map (fun m => m.KD.one_step_calls) = .ok 1 ∧
    (simul (Metaphase_init c2kd) none 0).map (fun m => m.KD.one_step_calls)
      ≠ .ok (Metaphase_init c2kd).num_steps.toNat := by
  refine ⟨?_, ?_, ?_⟩ <;> with_unfolding_all decide

/-- C2 (amended): for every configuration with positive `dt`, nonnegative
`span` and a fresh collaborator, `num_steps = ⌊span/dt⌋` and a completed
run performs exactly `num_steps − 1` physical-advancement calls (the loop
covers time points `1 .. num_steps−1`; step 0 is the initial condition). -/
theorem C2_theorem (kd : KDState) (a : Option ℕ) (p : ℚ)
    (h1 : 0 < kd.params.dt) (h2 : 0 ≤ kd.params.span)
    (h3 : kd.simulation_done = false) :
    (Metaphase_init kd).num_steps = ⌊kd.params.span / kd.params.dt⌋ ∧
    (simul (Metaphase_init kd) a p).map (fun m => m.KD.one_step_calls)
      = .ok ((Metaphase_init kd).num_steps - 1).toNat := by
  constructor
  · exact pyTrunc_of_nonneg _ (div_nonneg h2 h1.le)
  · rw [simul_ok (Metaphase_init kd) a p h3]
    simp only [Except.map, sim_finish_one_step_calls, loop_one_step_calls,
               List.length_range']
    show Except.ok (0 + ((Metaphase_init kd).num_steps - 1).toNat)
        = Except.ok ((Metaphase_init kd).num_steps - 1).toNat
    rw [Nat.zero_add]

/-- C2 witness: the amended statement evaluated on the concrete
configuration `c2kd`. -/
theorem C2_witness :
    (Metaphase_init c2kd).num_steps = ⌊c2kd.params.span / c2kd.params.dt⌋ ∧
    (simul (Metaphase_init c2kd) none 0).map (fun m => m.KD.one_step_calls)
      = .ok ((Metaphase_init c2kd).num_steps - 1).toNat :=
  C2_theorem c2kd none 0 (by decide) (by decide) rfl

/-- C3: an ablation position outside the closed pole-to-pole interval
leaves the whole state unchanged except for exactly one appended
diagnostic line (in particular every plug state is unchanged); a position
inside the interval maps each plug site that is already unattached to
itself. -/
theorem C3_theorem (s : MetaState) (tp : ℕ) (pos : ℚ) :
    (¬(s.KD.spbL_pos ≤ pos ∧ pos ≤ s.KD.spbR_pos) →
      ablation s tp (some pos)
        = { s with diagnostics := s.diagnostics ++ [missed_shot_line] }) ∧
    (s.KD.spbL_pos ≤ pos ∧ pos ≤ s.KD.spbR_pos →
      (ablation s tp (some pos)).KD.all_plugsites
        = s.KD.all_plugsites.map
            (fun q => if q.plug_state = 0 then q else ablation_site pos tp q)) := by
  constructor
  · intro h
    show ablation_at s tp pos = _
    unfold ablation_at
    rw [if_pos h]
  · intro h
    show (ablation_at s tp pos).KD.all_plugsites = _
    unfold ablation_at
    rw [if_neg (not_not_intro h)]
    show s.KD.all_plugsites.map (ablation_site pos tp) = _
    apply List.map_congr_left
    intro q _
    by_cases h0 : q.plug_state = 0
    · rw [if_pos h0]
      unfold ablation_site
      rw [if_neg, if_neg]
      · rintro ⟨-, h1⟩; rw [h0] at h1; exact absurd h1 (by decide)
      · rintro ⟨-, h1⟩; rw [h0] at h1; exact absurd h1 (by decide)
    · rw [if_neg h0]

/-- C3 witness: both branches evaluated on the concrete state `w3meta`
(poles at −1 and 1): a shot at position 5 misses, a shot at position 0 is
valid. -/
theorem C3_witness :
    ablation w3meta 2 (some 5)
      = { w3meta with diagnostics := w3meta.diagnostics ++ [missed_shot_line] } ∧
    (ablation w3meta 2 (some 0)).KD.all_plugsites
      = w3meta.KD.all_plugsites.map
          (fun q => if q.plug_state = 0 then q else ablation_site 0 2 q) :=
  ⟨(C3_theorem w3meta 2 5).1 (by decide), (C3_theorem w3meta 2 0).2 (by decide)⟩

/-- C4: the classifier is invariant under the left-right relabeling
permutation: `classify([a,b,c,d]) = classify([b,a,d,c])` for every
4-element count vector. -/
theorem C4_theorem (a b c d : ℤ) :
    get_attachment ⟨a, b, c, d⟩ = get_attachment ⟨b, a, d, c⟩ :=
  (get_attachment_perm ⟨a, b, c, d⟩).symm

/-- C5: once the anaphase flag is true, the anaphase test returns true and
performs no side effect: the state (parameters, coupling-matrix call
counter, recorded delay, report) is returned unchanged. -/
theorem C5_theorem (s : MetaState) (tp : ℕ) (h : s.KD.anaphase = true) :
    anaphase_test s tp = (true, s) :=
  anaphase_test_already s tp h

/-- C5 witness: the latch evaluated on a concrete latched state. -/
theorem C5_witness : anaphase_test anaMeta 4 = (true, anaMeta) :=
  C5_theorem anaMeta 4 rfl

/-- C6: invoking the run operation on an instance whose simulation is
already done raises `SimulationAlreadyDone` for every choice of ablation
arguments; the error is produced before any step, so no state is
returned. -/
theorem C6_theorem (s : MetaState) (a : Option ℕ) (p : ℚ)
    (h : s.KD.simulation_done = true) :
    simul s a p = .error "SimulationAlreadyDone" := by
  unfold simul
  rw [if_pos h]

/-- C6 witness: the already-done error on a concrete completed state. -/
theorem C6_witness : simul doneMeta none 0 = .error "SimulationAlreadyDone" :=
  C6_theorem doneMeta none 0 rfl

/-- C7 counterexample: with `t_A = 1/2` and `dt = 1/4` the transition
fires at time point 1 although `1*dt < t_A`, and it records
`delay = 1/4 ≠ 1*dt − t_A`: the code compares against the truncated
threshold `int(t_A)`, not `t_A`. -/
theorem C7_counterexample :
    (anaphase_test (Metaphase_init cex7kd) 1).1 = true ∧
    ¬((1 : ℚ) * cex7kd.params.dt ≥ cex7kd.params.t_A) ∧
    (anaphase_test (Metaphase_init cex7kd) 1).2.delay
      ≠ (1 : ℚ) * cex7kd.params.dt - cex7kd.params.t_A := by
  refine ⟨?_, ?_, ?_⟩ <;> with_unfolding_all decide

/-- C7 (amended): when the latch is unset, the transition fires iff
`time_point*dt ≥ int(t_A)` and the plug checkpoint passes; on firing it
records `delay = time_point*dt − int(t_A) ≥ 0`, zeroes the live
`kappa_c`, calls `calc_B` once, latches `anaphase`, and appends the
merotelic report line iff the merotelic count is nonzero. -/
theorem C7_theorem (s : MetaState) (tp : ℕ) (h : s.KD.anaphase = false) :
    ((anaphase_test s tp).1 = true ↔
      ((pyTrunc s.KD.params.t_A : ℚ) ≤ (tp : ℚ) * s.KD.params.dt ∧
        plug_checkpoint s.KD = true)) ∧
    ((anaphase_test s tp).1 = true →
      (anaphase_test s tp).2.delay
          = (tp : ℚ) * s.KD.params.dt - (pyTrunc s.KD.params.t_A : ℚ) ∧
        0 ≤ (anaphase_test s tp).2.delay ∧
        (anaphase_test s tp).2.KD.params.kappa_c = 0 ∧
        (anaphase_test s tp).2.KD.calcB_calls = s.KD.calcB_calls + 1 ∧
        (anaphase_test s tp).2.KD.anaphase = true ∧
        (mero_checkpoint s.KD ≠ 0 →
          (anaphase_test s tp).2.report
            = s.report ++ [mero_line (mero_checkpoint s.KD)]) ∧
        (mero_checkpoint s.KD = 0 → (anaphase_test s tp).2.report = s.report)) := by
  have hna : ¬ (s.KD.anaphase = true) := by simp [h]
  unfold anaphase_test
  rw [if_neg hna]
  by_cases hc : (pyTrunc s.KD.params.t_A : ℚ) ≤ (tp : ℚ) * s.KD.params.dt ∧
      plug_checkpoint s.KD = true
  · rw [if_pos hc]
    refine ⟨⟨fun _ => hc, fun _ => rfl⟩, fun _ => ⟨rfl, ?_, rfl, rfl, rfl, ?_, ?_⟩⟩
    · show 0 ≤ (tp : ℚ) * s.KD.params.dt - (pyTrunc s.KD.params.t_A : ℚ)
      exact sub_nonneg.mpr hc.1
    · intro hm
      show (if mero_checkpoint s.KD ≠ 0 then _ else _) = _
      rw [if_pos hm]
    · intro hm
      show (if mero_checkpoint s.KD ≠ 0 then _ else _) = _
      rw [if_neg (not_not_intro hm)]
  · rw [if_neg hc]
    exact ⟨⟨fun hcon => absurd hcon Bool.false_ne_true, fun hcond => absurd hcond hc⟩,
           fun hcon => absurd hcon Bool.false_ne_true⟩

/-- C7 witness: the amended statement's firing consequences evaluated on
the concrete configuration `kd9` at time point 3. -/
theorem C7_witness :
    (anaphase_test (Metaphase_init kd9) 3).2.delay
        = ((3 : ℕ) : ℚ) * (Metaphase_init kd9).KD.params.dt
          - (pyTrunc (Metaphase_init kd9).KD.params.t_A : ℚ) ∧
    (anaphase_test (Metaphase_init kd9) 3).2.KD.params.kappa_c = 0 :=
  have happ := (C7_theorem (Metaphase_init kd9) 3 rfl).2 (by with_unfolding_all decide)
  ⟨happ.1, happ.2.2.1⟩

/-- C8: the spindle-assembly checkpoint passes unconditionally when
`sac = 0`; when `sac ≠ 0` it passes iff every chromosome has both
centromeres attached, so any single unattached centromere makes it
fail. -/
theorem C8_theorem (kd : KDState) :
    (kd.params.sac = 0 → plug_checkpoint kd = true) ∧
    (kd.params.sac ≠ 0 →
      (plug_checkpoint kd = true ↔
        ∀ ch ∈ kd.chromosomes,
          ch.cenA_attached = true ∧ ch.cenB_attached = true)) := by
  constructor
  · intro h
    unfold plug_checkpoint
    rw [if_pos h]
  · intro h
    unfold plug_checkpoint
    rw [if_neg h]
    simp [List.all_eq_true, Bool.and_eq_true]

/-- C8 witness: the disabled checkpoint passes on a concrete state with
zero attached chromosomes. -/
theorem C8_witness : plug_checkpoint kd8 = true :=
  (C8_theorem kd8).1 rfl

/-- C9: a completed run restores the live `kappa_c` to the value it held
when the run started, whether or not the anaphase transition fired during
the loop. -/
theorem C9_theorem (s : MetaState) (a : Option ℕ) (p : ℚ)
    (h : s.KD.simulation_done = false) :
    (simul s a p).map (fun m => m.KD.params.kappa_c) = .ok s.KD.params.kappa_c := by
  rw [simul_ok s a p h]
  rfl

/-- C9 witness: `kappa_c` restored on a concrete run in which anaphase
fires (which zeroes the live copy mid-run). -/
theorem C9_witness :
    (simul (Metaphase_init kd9) none 0).map (fun m => m.KD.params.kappa_c)
      = .ok (Metaphase_init kd9).KD.params.kappa_c :=
  C9_theorem (Metaphase_init kd9) none 0 rfl

/-- C10: if the anaphase transition never fires during a run (the final
anaphase flag is still false) and the instance starts with the sentinel
`delay = -1` from construction, the run appends exactly one report line,
the string `"delay = -1 seconds"`, and the recorded delay is still −1. -/
theorem C10_theorem (s : MetaState) (a : Option ℕ) (p : ℚ)
    (hdone : s.KD.simulation_done = false)
    (hdelay : s.delay = -1)
    (hana : (simul s a p).map (fun m => m.KD.anaphase) = .ok false) :
    (simul s a p).map (fun m => (m.report, m.delay))
      = .ok (s.report ++ ["delay = -1 seconds"], (-1 : ℚ)) := by
  rw [simul_ok s a p hdone] at hana ⊢
  simp only [Except.map, Except.ok.injEq, sim_finish_anaphase] at hana
  have h2 := loop_no_fire a p (List.range' 1 (s.num_steps - 1).toNat) s hana
  simp only [Except.map, Except.ok.injEq, sim_finish_report, sim_finish_delay]
  rw [h2.1, h2.2, hdelay, delay_line_neg_one]

/-- C10 witness: the sentinel delay line on a concrete run in which the
checkpoint never passes. -/
theorem C10_witness :
    (simul (Metaphase_init c2kd) none 0).map (fun m => (m.report, m.delay))
      = .ok ((Metaphase_init c2kd).report ++ ["delay = -1 seconds"], (-1 : ℚ)) :=
  C10_theorem (Metaphase_init c2kd) none 0 rfl rfl (by with_unfolding_all decide)

end KtSimul
